import Mathlib

/-!
Shallow embedding of the OTP authentication subsystem of
`src/backend/server.js` (the `/api/send-otp`, `/api/verify-otp` and
`/api/logout` handlers together with the process-wide `otpStore`), and
proofs of the specified properties.

Modelling decisions:
* Timestamps (`Date.now()` values) are integers in milliseconds.
* `Math.random()` is modelled by a rational parameter `r` with
  `0 ≤ r < 1`; every IEEE double in `[0, 1)` is such a rational.
* The JavaScript object `otpStore` is modelled by an association list
  keyed by email; property assignment overwrites, `delete` removes.
* The outcome of `transporter.sendMail` is passed in as an
  `Option String` (`none` = delivered, `some e` = the callback error).
-/

namespace GalaxyETech

/-- One value of the in-memory store: the object stored by
`otpStore[email] = { otp, expires: Date.now() + 60000 }`. -/
structure OtpEntry where
  otp : String
  expires : Int
deriving DecidableEq, Repr

/-- The in-memory OTP store `const otpStore = {}`, an email-keyed mapping. -/
abbrev OtpStore := List (String × OtpEntry)

/-- Property lookup `otpStore[email]`. -/
def storeGet (s : OtpStore) (k : String) : Option OtpEntry :=
  (s.find? fun p => p.1 == k).map (·.2)

/-- Property assignment `otpStore[email] = v`: overwrites any entry for `k`. -/
def storePut (s : OtpStore) (k : String) (v : OtpEntry) : OtpStore :=
  (k, v) :: s.filter fun p => p.1 != k

/-- Property deletion `delete otpStore[email]`. -/
def storeErase (s : OtpStore) (k : String) : OtpStore :=
  s.filter fun p => p.1 != k

/-- The numeric OTP draw `Math.floor(100000 + Math.random() * 900000)`,
with `r` standing for the value returned by `Math.random()`. -/
def genOtpNum (r : ℚ) : ℤ :=
  ⌊(100000 : ℚ) + r * 900000⌋

/-- The OTP code string: `.toString()` applied to the drawn number. -/
def genOtp (r : ℚ) : String :=
  (genOtpNum r).toNat.repr

/-- An HTTP response as produced by the handlers: status code, `message`
field, and the optional `error` field of the 500 body. -/
structure Response where
  status : Nat
  message : String
  error : Option String := none
deriving DecidableEq, Repr

/-- Result of the `POST /api/send-otp` handler: the response sent, the
store after the request, and whether `transporter.sendMail` was invoked. -/
structure SendResult where
  response : Response
  store : OtpStore
  mailAttempted : Bool
deriving DecidableEq, Repr

/-- The `POST /api/send-otp` handler.  `adminEmail` is
`process.env.ADMIN_EMAIL`, `email` the request body field, `r` the
`Math.random()` draw, `now` the `Date.now()` value, and `mailErr` the
error argument passed to the `sendMail` callback (`none` on success). -/
def sendOtp (adminEmail email : String) (r : ℚ) (now : Int)
    (mailErr : Option String) (s : OtpStore) : SendResult :=
  if email = adminEmail then
    let otp := genOtp r
    let s' := storePut s email ⟨otp, now + 60000⟩
    match mailErr with
    | some e =>
        { response := { status := 500, message := "Error sending email", error := some e },
          store := s', mailAttempted := true }
    | none =>
        { response := { status := 200, message := "OTP sent successfully" },
          store := s', mailAttempted := true }
  else
    { response := { status := 401, message := "Unauthorized" },
      store := s, mailAttempted := false }

/-- The JWT minted by `jwt.sign({ email }, secret, { expiresIn: '30m' })`:
subject email plus an absolute expiry 30 minutes (1 800 000 ms) after
issuance.  The signature is abstracted by the transparent representation. -/
structure Token where
  email : String
  exp : Int
deriving DecidableEq, Repr

/-- Result of the `POST /api/verify-otp` handler. -/
structure VerifyResult where
  response : Response
  store : OtpStore
  token : Option Token
deriving DecidableEq, Repr

/-- The `POST /api/verify-otp` handler: succeeds iff an entry exists for
`email`, the submitted `otp` equals the stored string, and
`storedOtpData.expires > Date.now()`; on success the entry is deleted and
a token expiring 30 minutes later is signed. -/
def verifyOtp (email otp : String) (now : Int) (s : OtpStore) : VerifyResult :=
  match storeGet s email with
  | some d =>
    if d.otp = otp ∧ now < d.expires then
      { response := { status := 200, message := "OTP verified successfully" },
        store := storeErase s email,
        token := some { email := email, exp := now + 1800000 } }
    else
      { response := { status := 400, message := "Invalid OTP or OTP expired" },
        store := s, token := none }
  | none =>
      { response := { status := 400, message := "Invalid OTP or OTP expired" },
        store := s, token := none }

/-- Modelled from the spec: token verification (`jwt.verify`) lives in the
`jsonwebtoken` library, not in this repository; per the spec it checks
signature and expiry and "fails `Invalid` on bad signature, malformed
token, or expiry in the past".  With signatures abstracted away, a token
is `Invalid` (`none`) exactly when its expiry lies in the past. -/
def verifyToken (t : Token) (now : Int) : Option String :=
  if t.exp < now then none else some t.email

/-- One client-visible API call of the OTP subsystem. -/
inductive Event where
  | send (email : String) (r : ℚ) (now : Int) (mailErr : Option String)
  | verify (email : String) (otp : String) (now : Int)

/-- Runs a sequence of API calls, threading the store and collecting every
token the server issues. -/
def runEvents (adminEmail : String) :
    OtpStore → List Token → List Event → OtpStore × List Token
  | s, toks, [] => (s, toks)
  | s, toks, Event.send email r now mailErr :: rest =>
      runEvents adminEmail (sendOtp adminEmail email r now mailErr s).store toks rest
  | s, toks, Event.verify email otp now :: rest =>
      let v := verifyOtp email otp now s
      runEvents adminEmail v.store (toks ++ v.token.toList) rest

/-! ### Store lemmas -/

/-- Filtering away key `k` does not change lookups of a different key. -/
theorem find?_filter_ne (s : OtpStore) (k kk : String) (h : ¬ kk = k) :
    ((s.filter fun p => p.1 != k).find? fun p => p.1 == kk) =
      s.find? fun p => p.1 == kk := by
  induction s with
  | nil => rfl
  | cons a t ih =>
    by_cases hak : a.1 = k
    · have hfa : (a.1 != k) = false := by simp [hak]
      have h2 : (a.1 == kk) = false := by
        simp only [beq_eq_false_iff_ne, ne_eq, hak]
        exact fun e => h e.symm
      rw [List.filter_cons, hfa]
      rw [List.find?_cons, h2] at *
      simpa using ih
    · have hfa : (a.1 != k) = true := by simp [hak]
      rw [List.filter_cons, hfa]
      simp only [if_true]
      rw [List.find?_cons, List.find?_cons]
      cases hakk : (a.1 == kk) <;> simp [ih]

/-- After filtering away key `k`, looking up `k` finds nothing. -/
theorem find?_filter_self (s : OtpStore) (k : String) :
    ((s.filter fun p => p.1 != k).find? fun p => p.1 == k) = none := by
  rw [List.find?_eq_none]
  intro p hp
  have h := (List.mem_filter.mp hp).2
  simpa using h

/-- Lookup after assignment of the same key returns the new value. -/
theorem storeGet_put_self (s : OtpStore) (k : String) (v : OtpEntry) :
    storeGet (storePut s k v) k = some v := by
  simp [storeGet, storePut, List.find?_cons_of_pos]

/-- Lookup after assignment of a different key is unchanged. -/
theorem storeGet_put_ne (s : OtpStore) (k : String) (v : OtpEntry) (kk : String)
    (h : ¬ kk = k) : storeGet (storePut s k v) kk = storeGet s kk := by
  have h2 : (k == kk) = false := by
    simp only [beq_eq_false_iff_ne, ne_eq]
    exact fun e => h e.symm
  simp [storeGet, storePut, List.find?_cons_of_neg, h2, find?_filter_ne s k kk h]

/-- Lookup after deletion of the same key finds nothing. -/
theorem storeGet_erase_self (s : OtpStore) (k : String) :
    storeGet (storeErase s k) k = none := by
  simp [storeGet, storeErase, find?_filter_self]

/-- Lookup after deletion of a different key is unchanged. -/
theorem storeGet_erase_ne (s : OtpStore) (k kk : String) (h : ¬ kk = k) :
    storeGet (storeErase s k) kk = storeGet s kk := by
  simp [storeGet, storeErase, find?_filter_ne s k kk h]

/-- For the admin identity the store written by `sendOtp` is the overwrite
of the previous store, whatever the notifier outcome. -/
theorem sendOtp_store_admin (adminEmail : String) (r : ℚ) (now : Int)
    (mailErr : Option String) (s : OtpStore) :
    (sendOtp adminEmail adminEmail r now mailErr s).store =
      storePut s adminEmail ⟨genOtp r, now + 60000⟩ := by
  cases mailErr <;> simp [sendOtp]

/-- A verification that does not succeed leaves the store untouched. -/
theorem verifyOtp_store_of_fail (email otp : String) (now : Int) (s : OtpStore)
    (h : (verifyOtp email otp now s).response.status ≠ 200) :
    (verifyOtp email otp now s).store = s := by
  unfold verifyOtp at *
  cases hget : storeGet s email with
  | none => simp
  | some d =>
    by_cases hc : d.otp = otp ∧ now < d.expires
    · rw [hget] at h
      simp [hc] at h
    · simp [hc]

/-- A verification that issues no token answers with the uniform 400 body. -/
theorem verifyOtp_fail_response (email otp : String) (now : Int) (s : OtpStore)
    (h : (verifyOtp email otp now s).token = none) :
    (verifyOtp email otp now s).response =
      ⟨400, "Invalid OTP or OTP expired", none⟩ := by
  unfold verifyOtp at *
  cases hget : storeGet s email with
  | none => simp
  | some d =>
    by_cases hc : d.otp = otp ∧ now < d.expires
    · rw [hget] at h
      simp [hc] at h
    · simp [hc]

/-- Filtering preserves a `List.all` bound. -/
theorem all_of_all_filter {α : Type} (s : List α) (f g : α → Bool)
    (hall : s.all g = true) : (s.filter f).all g = true := by
  simp only [List.all_eq_true] at *
  intro x hx
  exact hall x (List.mem_filter.mp hx).1

/-- In a store all of whose keys equal the admin email, a successful lookup
forces the looked-up key to be the admin email. -/
theorem storeGet_key_of_all (adminEmail email : String) (s : OtpStore) (d : OtpEntry)
    (hall : (s.all fun p => p.1 == adminEmail) = true)
    (hget : storeGet s email = some d) : email = adminEmail := by
  unfold storeGet at hget
  cases hfind : s.find? (fun p => p.1 == email) with
  | none => rw [hfind] at hget; simp at hget
  | some p =>
    have h1 : (p.1 == email) = true := by
      have h0 := List.find?_some (p := fun q : String × OtpEntry => q.1 == email) hfind
      simpa using h0
    have h2 : p ∈ s := List.mem_of_find?_eq_some hfind
    have h3 : (p.1 == adminEmail) = true := List.all_eq_true.mp hall p h2
    have e1 : p.1 = email := by simpa using h1
    have e2 : p.1 = adminEmail := by simpa using h3
    rw [← e1, e2]

/-- Running any sequence of API calls preserves the invariant that every
store key and every issued token carries the admin email. -/
theorem runEvents_admin_all (adminEmail : String) (events : List Event) :
    ∀ (s : OtpStore) (toks : List Token),
      (s.all fun p => p.1 == adminEmail) = true →
      (toks.all fun t => t.email == adminEmail) = true →
      ((runEvents adminEmail s toks events).1.all fun p => p.1 == adminEmail) = true ∧
      ((runEvents adminEmail s toks events).2.all fun t => t.email == adminEmail) = true := by
  induction events with
  | nil => intro s toks hs ht; exact ⟨hs, ht⟩
  | cons e rest ih =>
    intro s toks hs ht
    cases e with
    | send email r now mailErr =>
      simp only [runEvents]
      refine ih _ _ ?_ ht
      by_cases he : email = adminEmail
      · subst he
        rw [sendOtp_store_admin]
        simp only [storePut, List.all_cons, Bool.and_eq_true]
        exact ⟨by simp, all_of_all_filter _ _ _ hs⟩
      · simpa [sendOtp, he] using hs
    | verify email otp now =>
      simp only [runEvents]
      refine ih _ _ ?_ ?_
      · unfold verifyOtp
        cases hget : storeGet s email with
        | none => simpa using hs
        | some d =>
          by_cases hc : d.otp = otp ∧ now < d.expires
          · simp only [hc, if_true, storeErase]
            exact all_of_all_filter _ _ _ hs
          · simpa [hc] using hs
      · unfold verifyOtp
        cases hget : storeGet s email with
        | none => simpa using ht
        | some d =>
          by_cases hc : d.otp = otp ∧ now < d.expires
          · have he : email = adminEmail := storeGet_key_of_all adminEmail email s d hs hget
            simp only [hc, if_true, Option.toList_some, List.all_append, Bool.and_eq_true]
            exact ⟨ht, by simp [he]⟩
          · simpa [hc] using ht

/-! ### Decimal representation of the drawn code -/

/-- Unfolding step of `Nat.toDigitsCore` while the quotient is nonzero. -/
theorem toDigitsCore_step (f n : ℕ) (l : List Char) (h : ¬ n / 10 = 0) :
    Nat.toDigitsCore 10 (f + 1) n l =
      Nat.toDigitsCore 10 f (n / 10) (Nat.digitChar (n % 10) :: l) := by
  simp [Nat.toDigitsCore, h]

/-- Final step of `Nat.toDigitsCore` once the quotient is zero. -/
theorem toDigitsCore_stop (f n : ℕ) (l : List Char) (h : n / 10 = 0) :
    Nat.toDigitsCore 10 (f + 1) n l = Nat.digitChar (n % 10) :: l := by
  simp [Nat.toDigitsCore, h]

/-- Digit list of a six-digit number, most significant digit first. -/
theorem toDigits_of_six_digits (f n : ℕ) (l : List Char) (hf : 6 ≤ f)
    (h1 : 100000 ≤ n) (h2 : n < 1000000) :
    Nat.toDigitsCore 10 f n l =
      Nat.digitChar (n / 100000) :: Nat.digitChar (n / 10000 % 10) ::
      Nat.digitChar (n / 1000 % 10) :: Nat.digitChar (n / 100 % 10) ::
      Nat.digitChar (n / 10 % 10) :: Nat.digitChar (n % 10) :: l := by
  obtain ⟨m, rfl⟩ : ∃ m, f = m + 6 := ⟨f - 6, by omega⟩
  have e1 : n / 10 / 10 = n / 100 := by omega
  have e2 : n / 100 / 10 = n / 1000 := by omega
  have e3 : n / 1000 / 10 = n / 10000 := by omega
  have e4 : n / 10000 / 10 = n / 100000 := by omega
  have e5 : n / 100000 % 10 = n / 100000 := by omega
  rw [show m + 6 = (m + 5) + 1 by omega, toDigitsCore_step _ _ _ (by omega)]
  rw [show m + 5 = (m + 4) + 1 by omega, toDigitsCore_step _ _ _ (by omega), e1]
  rw [show m + 4 = (m + 3) + 1 by omega, toDigitsCore_step _ _ _ (by omega), e2]
  rw [show m + 3 = (m + 2) + 1 by omega, toDigitsCore_step _ _ _ (by omega), e3]
  rw [show m + 2 = (m + 1) + 1 by omega, toDigitsCore_step _ _ _ (by omega), e4]
  rw [toDigitsCore_stop _ _ _ (by omega), e5]

/-- The decimal string of a six-digit number: length six and the leading
character is the digit character of `n / 100000`. -/
theorem repr_of_six_digits (n : ℕ) (h1 : 100000 ≤ n) (h2 : n < 1000000) :
    (Nat.repr n).length = 6 ∧
    (Nat.repr n).data.head? = some (Nat.digitChar (n / 100000)) := by
  have key : Nat.toDigits 10 n =
      Nat.digitChar (n / 100000) :: Nat.digitChar (n / 10000 % 10) ::
      Nat.digitChar (n / 1000 % 10) :: Nat.digitChar (n / 100 % 10) ::
      Nat.digitChar (n / 10 % 10) :: Nat.digitChar (n % 10) :: [] :=
    toDigits_of_six_digits (n + 1) n [] (by omega) h1 h2
  constructor
  · show (Nat.repr n).data.length = 6
    simp [Nat.repr, List.asString, key]
  · simp [Nat.repr, List.asString, key]

/-- The digit character of a digit between 1 and 9 is not the character 0. -/
theorem digitChar_ne_zero (d : ℕ) (h1 : 1 ≤ d) (h2 : d ≤ 9) :
    Nat.digitChar d ≠ '0' := by
  interval_cases d <;> decide

/-- Lower bound of the draw: the floor is at least 100000 when the random
value is nonnegative. -/
theorem genOtpNum_lb (r : ℚ) (h0 : 0 ≤ r) : 100000 ≤ genOtpNum r := by
  unfold genOtpNum
  rw [Int.le_floor]
  have : (0 : ℚ) ≤ r * 900000 := mul_nonneg h0 (by norm_num)
  push_cast
  linarith

/-- Upper bound of the draw: the floor is at most 999999 when the random
value is below one. -/
theorem genOtpNum_ub (r : ℚ) (h1 : r < 1) : genOtpNum r ≤ 999999 := by
  unfold genOtpNum
  have h : ⌊(100000 : ℚ) + r * 900000⌋ < 1000000 := by
    rw [Int.floor_lt]
    have : r * 900000 < 1 * 900000 := by
      exact mul_lt_mul_of_pos_right h1 (by norm_num)
    push_cast
    linarith
  omega

/-- Sample evaluation of the code drawn at `r = 0`. -/
theorem genOtp_zero : genOtp 0 = "100000" := by
  unfold genOtp genOtpNum
  norm_num
  rfl

/-- Sample evaluation of the code drawn at `r = 1/2`. -/
theorem genOtp_half : genOtp (1 / 2) = "550000" := by
  unfold genOtp genOtpNum
  norm_num
  rfl

/-! ### Claims -/

/-- C1: starting from the empty OTP store, after any sequence of send-otp
and verify-otp calls every key of the reachable store equals the admin
identity and every session token ever issued carries the admin identity,
so no other identity can obtain a session token. -/
theorem claim1_admin_only_sessions (adminEmail : String) (events : List Event) :
    ((runEvents adminEmail [] [] events).1.all fun p => p.1 == adminEmail) = true ∧
    ((runEvents adminEmail [] [] events).2.all fun t => t.email == adminEmail) = true :=
  runEvents_admin_all adminEmail events [] [] rfl rfl

/-- C2: for the admin identity, a request followed by a verification with
the exact issued code inside the expiry window succeeds (status 200, a
token bound to the admin identity), and a second verification with the
same code, at any later time, fails with the uniform 400 body and no
token: the challenge was removed on the success path. -/
theorem claim2_verify_succeeds_exactly_once (adminEmail : String) (r : ℚ)
    (now now2 now3 : Int) (mailErr : Option String) (s : OtpStore)
    (h : now2 < now + 60000) :
    (verifyOtp adminEmail (genOtp r) now2
        (sendOtp adminEmail adminEmail r now mailErr s).store).response.status = 200 ∧
    (verifyOtp adminEmail (genOtp r) now2
        (sendOtp adminEmail adminEmail r now mailErr s).store).token =
      some ⟨adminEmail, now2 + 1800000⟩ ∧
    (verifyOtp adminEmail (genOtp r) now3
        (verifyOtp adminEmail (genOtp r) now2
          (sendOtp adminEmail adminEmail r now mailErr s).store).store).response =
      ⟨400, "Invalid OTP or OTP expired", none⟩ ∧
    (verifyOtp adminEmail (genOtp r) now3
        (verifyOtp adminEmail (genOtp r) now2
          (sendOtp adminEmail adminEmail r now mailErr s).store).store).token = none := by
  rw [sendOtp_store_admin]
  have hget := storeGet_put_self s adminEmail ⟨genOtp r, now + 60000⟩
  have h1 : verifyOtp adminEmail (genOtp r) now2
      (storePut s adminEmail ⟨genOtp r, now + 60000⟩) =
      { response := ⟨200, "OTP verified successfully", none⟩,
        store := storeErase (storePut s adminEmail ⟨genOtp r, now + 60000⟩) adminEmail,
        token := some ⟨adminEmail, now2 + 1800000⟩ } := by
    unfold verifyOtp
    rw [hget]
    simp [h]
  rw [h1]
  have h2 : verifyOtp adminEmail (genOtp r) now3
      (storeErase (storePut s adminEmail ⟨genOtp r, now + 60000⟩) adminEmail) =
      { response := ⟨400, "Invalid OTP or OTP expired", none⟩,
        store := storeErase (storePut s adminEmail ⟨genOtp r, now + 60000⟩) adminEmail,
        token := none } := by
    unfold verifyOtp
    rw [storeGet_erase_self]
  rw [h2]
  exact ⟨rfl, rfl, rfl, rfl⟩

/-- C2 witness: the single-use round trip at concrete inputs. -/
theorem claim2_verify_succeeds_exactly_once_witness :
    ((0 : ℤ) < 0 + 60000) ∧
    ((verifyOtp "a@x.com" (genOtp 0) 0
        (sendOtp "a@x.com" "a@x.com" 0 0 none []).store).response.status = 200 ∧
     (verifyOtp "a@x.com" (genOtp 0) 0
        (sendOtp "a@x.com" "a@x.com" 0 0 none []).store).token =
       some ⟨"a@x.com", 0 + 1800000⟩ ∧
     (verifyOtp "a@x.com" (genOtp 0) 0
        (verifyOtp "a@x.com" (genOtp 0) 0
          (sendOtp "a@x.com" "a@x.com" 0 0 none []).store).store).response =
       ⟨400, "Invalid OTP or OTP expired", none⟩ ∧
     (verifyOtp "a@x.com" (genOtp 0) 0
        (verifyOtp "a@x.com" (genOtp 0) 0
          (sendOtp "a@x.com" "a@x.com" 0 0 none []).store).store).token = none) :=
  ⟨by decide, claim2_verify_succeeds_exactly_once "a@x.com" 0 0 0 0 none [] (by decide)⟩

/-- C3 counterexample: a stored challenge with expiry 60000 and matching
code submitted exactly at `now = expiresAt = 60000` is rejected (400, no
token), although the claim says this boundary instant still succeeds. -/
theorem claim3_counterexample_boundary :
    (verifyOtp "a@x.com" "123456" 60000
        [("a@x.com", ⟨"123456", 60000⟩)]).response.status = 400 ∧
    (verifyOtp "a@x.com" "123456" 60000
        [("a@x.com", ⟨"123456", 60000⟩)]).token = none := by
  decide

/-- C3 (amended): verification succeeds iff a challenge is stored for the
identity, the submitted code equals the stored code by string equality,
and `now` is strictly below `expiresAt` (`expires > Date.now()`); at the
instant `now = expiresAt` it fails. -/
theorem claim3_amended_success_iff (email otp : String) (now : Int) (s : OtpStore) :
    (verifyOtp email otp now s).response.status = 200 ↔
      ∃ d, storeGet s email = some d ∧ d.otp = otp ∧ now < d.expires := by
  unfold verifyOtp
  cases hget : storeGet s email with
  | none => simp
  | some d =>
    by_cases hc : d.otp = otp ∧ now < d.expires
    · simp [hc]
    · simp only [hc, if_false]
      constructor
      · intro hh
        exact absurd hh (by decide)
      · rintro ⟨d2, hd2, hrest⟩
        injection hd2 with hd2
        exact absurd (hd2 ▸ hrest) hc

/-- C4 counterexample: no admissible draw yields a code numerically below
100000, and none whose decimal string begins with the character 0 — the
codes 000000 through 099999 of the claimed full range are unreachable. -/
theorem claim4_counterexample_no_leading_zero :
    ¬ ∃ r : ℚ, 0 ≤ r ∧ r < 1 ∧
      ((genOtp r).data.head? = some '0' ∨ genOtpNum r < 100000) := by
  rintro ⟨r, h0, h1, hbad⟩
  have hlb := genOtpNum_lb r h0
  have hub := genOtpNum_ub r h1
  rcases hbad with hhead | hlt
  · have hn1 : 100000 ≤ (genOtpNum r).toNat := by omega
    have hn2 : (genOtpNum r).toNat < 1000000 := by omega
    have hrepr := repr_of_six_digits (genOtpNum r).toNat hn1 hn2
    unfold genOtp at hhead
    rw [hrepr.2] at hhead
    have hd1 : 1 ≤ (genOtpNum r).toNat / 100000 := by omega
    have hd9 : (genOtpNum r).toNat / 100000 ≤ 9 := by omega
    have hne := digitChar_ne_zero _ hd1 hd9
    injection hhead with hhead
    exact hne hhead
  · omega

/-- C4 (amended): the drawn code is uniform over 100000–999999 only: it is
always at least 100000 and at most 999999, and its decimal string always
has six characters, the first of which is never the character 0. -/
theorem claim4_amended_code_range (r : ℚ) (h0 : 0 ≤ r) (h1 : r < 1) :
    100000 ≤ genOtpNum r ∧ genOtpNum r ≤ 999999 ∧
    (genOtp r).length = 6 ∧ (genOtp r).data.head? ≠ some '0' := by
  have hlb := genOtpNum_lb r h0
  have hub := genOtpNum_ub r h1
  have hn1 : 100000 ≤ (genOtpNum r).toNat := by omega
  have hn2 : (genOtpNum r).toNat < 1000000 := by omega
  have hrepr := repr_of_six_digits (genOtpNum r).toNat hn1 hn2
  refine ⟨hlb, hub, hrepr.1, ?_⟩
  unfold genOtp
  rw [hrepr.2]
  have hd1 : 1 ≤ (genOtpNum r).toNat / 100000 := by omega
  have hd9 : (genOtpNum r).toNat / 100000 ≤ 9 := by omega
  have hne := digitChar_ne_zero _ hd1 hd9
  simp [hne]

/-- C4 witness: the draw at `r = 0` satisfies the amended bounds. -/
theorem claim4_amended_code_range_witness :
    ((0 : ℚ) ≤ 0 ∧ (0 : ℚ) < 1) ∧
    (100000 ≤ genOtpNum 0 ∧ genOtpNum 0 ≤ 999999 ∧
     (genOtp 0).length = 6 ∧ (genOtp 0).data.head? ≠ some '0') :=
  ⟨⟨by decide, by decide⟩, claim4_amended_code_range 0 (by decide) (by decide)⟩

/-- C5 counterexample: with the same draw for both requests the code
issued by the first request still verifies (status 200) after the second
request, at time 2000, although the first challenge was otherwise
unexpired (2000 is before its expiry 60000) and the claim says the old
code must then fail. -/
theorem claim5_counterexample_colliding_codes :
    (verifyOtp "a@x.com" (genOtp 0) 2000
      (sendOtp "a@x.com" "a@x.com" 0 1000 none
        (sendOtp "a@x.com" "a@x.com" 0 0 none []).store).store).response.status = 200 ∧
    (2000 : ℤ) < 0 + 60000 := by
  constructor
  · rw [sendOtp_store_admin, sendOtp_store_admin]
    unfold verifyOtp
    rw [storeGet_put_self]
    norm_num
  · decide

/-- C5 (amended): a second request for the same identity unconditionally
overwrites the stored challenge — afterwards the lookup yields exactly the
new challenge — and the old code fails verification at any time provided
the fresh draw differs from the old code (a fresh draw equal to the old
code keeps that same string verifiable). -/
theorem claim5_amended_overwrite (adminEmail : String) (r1 r2 : ℚ)
    (t1 t2 now : Int) (m1 m2 : Option String) (s : OtpStore)
    (hne : genOtp r2 ≠ genOtp r1) :
    storeGet ((sendOtp adminEmail adminEmail r2 t2 m2
        (sendOtp adminEmail adminEmail r1 t1 m1 s).store).store) adminEmail =
      some ⟨genOtp r2, t2 + 60000⟩ ∧
    (verifyOtp adminEmail (genOtp r1) now
        (sendOtp adminEmail adminEmail r2 t2 m2
          (sendOtp adminEmail adminEmail r1 t1 m1 s).store).store).response.status = 400 := by
  rw [sendOtp_store_admin, sendOtp_store_admin]
  have hget := storeGet_put_self (storePut s adminEmail ⟨genOtp r1, t1 + 60000⟩)
    adminEmail ⟨genOtp r2, t2 + 60000⟩
  refine ⟨hget, ?_⟩
  unfold verifyOtp
  rw [hget]
  simp [hne]

/-- C5 witness: distinct draws at concrete inputs. -/
theorem claim5_amended_overwrite_witness :
    genOtp (1 / 2) ≠ genOtp 0 ∧
    (storeGet ((sendOtp "a@x.com" "a@x.com" (1 / 2) 1000 none
        (sendOtp "a@x.com" "a@x.com" 0 0 none []).store).store) "a@x.com" =
      some ⟨genOtp (1 / 2), 1000 + 60000⟩ ∧
     (verifyOtp "a@x.com" (genOtp 0) 2000
        (sendOtp "a@x.com" "a@x.com" (1 / 2) 1000 none
          (sendOtp "a@x.com" "a@x.com" 0 0 none []).store).store).response.status = 400) :=
  ⟨by rw [genOtp_zero, genOtp_half]; decide,
   claim5_amended_overwrite "a@x.com" 0 (1 / 2) 0 1000 2000 none none []
     (by rw [genOtp_zero, genOtp_half]; decide)⟩

/-- C6: a non-matching code against a stored challenge fails with 400 and
leaves the store exactly as it was; the correct code, submitted before
expiry, still succeeds afterwards. -/
theorem claim6_failed_verify_preserves_store (email wrong : String)
    (now now2 : Int) (d : OtpEntry) (s : OtpStore)
    (hget : storeGet s email = some d) (hw : wrong ≠ d.otp)
    (h2 : now2 < d.expires) :
    (verifyOtp email wrong now s).response.status = 400 ∧
    (verifyOtp email wrong now s).store = s ∧
    (verifyOtp email d.otp now2 (verifyOtp email wrong now s).store).response.status = 200 := by
  have hc : ¬ (d.otp = wrong ∧ now < d.expires) := fun hh => hw hh.1.symm
  have hfail : verifyOtp email wrong now s =
      { response := ⟨400, "Invalid OTP or OTP expired", none⟩,
        store := s, token := none } := by
    unfold verifyOtp
    rw [hget]
    simp [hc]
  refine ⟨by rw [hfail], by rw [hfail], ?_⟩
  rw [hfail]
  unfold verifyOtp
  rw [hget]
  simp [h2]

/-- C6 witness: mismatch then correct retry at concrete inputs. -/
theorem claim6_failed_verify_preserves_store_witness :
    (storeGet [("a@x.com", ⟨"123456", 60000⟩)] "a@x.com" =
        some ⟨"123456", 60000⟩ ∧
     ("000000" : String) ≠ "123456" ∧ (0 : ℤ) < 60000) ∧
    ((verifyOtp "a@x.com" "000000" 0
        [("a@x.com", ⟨"123456", 60000⟩)]).response.status = 400 ∧
     (verifyOtp "a@x.com" "000000" 0
        [("a@x.com", ⟨"123456", 60000⟩)]).store =
       [("a@x.com", ⟨"123456", 60000⟩)] ∧
     (verifyOtp "a@x.com" "123456" 0
        (verifyOtp "a@x.com" "000000" 0
          [("a@x.com", ⟨"123456", 60000⟩)]).store).response.status = 200) :=
  ⟨⟨by decide, by decide, by decide⟩,
   claim6_failed_verify_preserves_store "a@x.com" "000000" 0 0
     ⟨"123456", 60000⟩ [("a@x.com", ⟨"123456", 60000⟩)]
     (by decide) (by decide) (by decide)⟩

/-- C7: any two failing verification calls — challenge absent, code
mismatch, or challenge expired — answer with the identical response, the
uniform 400 body, so the caller cannot tell the causes apart. -/
theorem claim7_uniform_failure (e1 o1 : String) (t1 : Int) (s1 : OtpStore)
    (e2 o2 : String) (t2 : Int) (s2 : OtpStore)
    (h1 : (verifyOtp e1 o1 t1 s1).token = none)
    (h2 : (verifyOtp e2 o2 t2 s2).token = none) :
    (verifyOtp e1 o1 t1 s1).response = (verifyOtp e2 o2 t2 s2).response ∧
    (verifyOtp e1 o1 t1 s1).response = ⟨400, "Invalid OTP or OTP expired", none⟩ := by
  have r1 := verifyOtp_fail_response e1 o1 t1 s1 h1
  have r2 := verifyOtp_fail_response e2 o2 t2 s2 h2
  exact ⟨r1.trans r2.symm, r1⟩

/-- C7 witness: an absent challenge, a mismatching code, and an expired
challenge all produce the same concrete response. -/
theorem claim7_uniform_failure_witness :
    ((verifyOtp "a@x.com" "123456" 0 []).token = none ∧
     (verifyOtp "a@x.com" "000000" 0
        [("a@x.com", ⟨"123456", 60000⟩)]).token = none ∧
     (verifyOtp "a@x.com" "123456" 70000
        [("a@x.com", ⟨"123456", 60000⟩)]).token = none) ∧
    ((verifyOtp "a@x.com" "123456" 0 []).response =
        (verifyOtp "a@x.com" "000000" 0
          [("a@x.com", ⟨"123456", 60000⟩)]).response ∧
     (verifyOtp "a@x.com" "123456" 0 []).response =
        (verifyOtp "a@x.com" "123456" 70000
          [("a@x.com", ⟨"123456", 60000⟩)]).response ∧
     (verifyOtp "a@x.com" "123456" 0 []).response =
        ⟨400, "Invalid OTP or OTP expired", none⟩) :=
  ⟨⟨by decide, by decide, by decide⟩,
   ⟨(claim7_uniform_failure "a@x.com" "123456" 0 [] "a@x.com" "000000" 0
       [("a@x.com", ⟨"123456", 60000⟩)] (by decide) (by decide)).1,
    (claim7_uniform_failure "a@x.com" "123456" 0 [] "a@x.com" "123456" 70000
       [("a@x.com", ⟨"123456", 60000⟩)] (by decide) (by decide)).1,
    (claim7_uniform_failure "a@x.com" "123456" 0 [] "a@x.com" "000000" 0
       [("a@x.com", ⟨"123456", 60000⟩)] (by decide) (by decide)).2⟩⟩

/-- C8: a notifier failure makes the request answer 500 with the error
detail, yet the challenge had already been written and is not rolled back:
it is still stored and still verifiable before expiry. -/
theorem claim8_notifier_failure_no_rollback (adminEmail : String) (r : ℚ)
    (err : String) (now now2 : Int) (s : OtpStore) (h : now2 < now + 60000) :
    (sendOtp adminEmail adminEmail r now (some err) s).response =
      ⟨500, "Error sending email", some err⟩ ∧
    storeGet (sendOtp adminEmail adminEmail r now (some err) s).store adminEmail =
      some ⟨genOtp r, now + 60000⟩ ∧
    (verifyOtp adminEmail (genOtp r) now2
        (sendOtp adminEmail adminEmail r now (some err) s).store).response.status = 200 := by
  refine ⟨by simp [sendOtp], ?_, ?_⟩
  · rw [sendOtp_store_admin]
    exact storeGet_put_self s adminEmail ⟨genOtp r, now + 60000⟩
  · rw [sendOtp_store_admin]
    unfold verifyOtp
    rw [storeGet_put_self]
    simp [h]

/-- C8 witness: delivery failure at concrete inputs. -/
theorem claim8_notifier_failure_no_rollback_witness :
    ((0 : ℤ) < 0 + 60000) ∧
    ((sendOtp "a@x.com" "a@x.com" 0 0 (some "smtp down") []).response =
       ⟨500, "Error sending email", some "smtp down"⟩ ∧
     storeGet (sendOtp "a@x.com" "a@x.com" 0 0 (some "smtp down") []).store "a@x.com" =
       some ⟨genOtp 0, 0 + 60000⟩ ∧
     (verifyOtp "a@x.com" (genOtp 0) 0
        (sendOtp "a@x.com" "a@x.com" 0 0 (some "smtp down") []).store).response.status = 200) :=
  ⟨by decide,
   claim8_notifier_failure_no_rollback "a@x.com" 0 "smtp down" 0 0 [] (by decide)⟩

/-- C9: for any identity other than the admin identity the request is
rejected with 401 Unauthorized, the store is left exactly unchanged, and
no mail delivery is attempted. -/
theorem claim9_nonadmin_rejected (adminEmail email : String) (r : ℚ)
    (now : Int) (mailErr : Option String) (s : OtpStore)
    (h : ¬ email = adminEmail) :
    (sendOtp adminEmail email r now mailErr s).response = ⟨401, "Unauthorized", none⟩ ∧
    (sendOtp adminEmail email r now mailErr s).store = s ∧
    (sendOtp adminEmail email r now mailErr s).mailAttempted = false := by
  simp [sendOtp, h]

/-- C9 witness: a non-admin request at concrete inputs. -/
theorem claim9_nonadmin_rejected_witness :
    (¬ ("b@y.com" : String) = "a@x.com") ∧
    ((sendOtp "a@x.com" "b@y.com" 0 0 none []).response = ⟨401, "Unauthorized", none⟩ ∧
     (sendOtp "a@x.com" "b@y.com" 0 0 none []).store = [] ∧
     (sendOtp "a@x.com" "b@y.com" 0 0 none []).mailAttempted = false) :=
  ⟨by decide, claim9_nonadmin_rejected "a@x.com" "b@y.com" 0 0 none [] (by decide)⟩

/-- C10: a token minted by a successful verification carries the verifying
identity as subject and an absolute expiry 30 minutes (1 800 000 ms) after
issuance, and it verifies as Invalid at any instant past that expiry. -/
theorem claim10_token_subject_expiry (email otp : String) (now t : Int)
    (s : OtpStore) (tok : Token)
    (h : (verifyOtp email otp now s).token = some tok) (ht : tok.exp < t) :
    tok.email = email ∧ tok.exp = now + 1800000 ∧ verifyToken tok t = none := by
  cases hget : storeGet s email with
  | none =>
    have hv : verifyOtp email otp now s =
        { response := ⟨400, "Invalid OTP or OTP expired", none⟩,
          store := s, token := none } := by
      unfold verifyOtp
      rw [hget]
    rw [hv] at h
    exact absurd h (by simp)
  | some d =>
    by_cases hc : d.otp = otp ∧ now < d.expires
    · have hv : verifyOtp email otp now s =
          { response := ⟨200, "OTP verified successfully", none⟩,
            store := storeErase s email,
            token := some ⟨email, now + 1800000⟩ } := by
        unfold verifyOtp
        rw [hget]
        simp [hc]
      rw [hv] at h
      have hh : some (⟨email, now + 1800000⟩ : Token) = some tok := h
      have htok : tok = ⟨email, now + 1800000⟩ := by
        injection hh with hh
        exact hh.symm
      subst htok
      exact ⟨rfl, rfl, by simp [verifyToken, ht]⟩
    · have hv : verifyOtp email otp now s =
          { response := ⟨400, "Invalid OTP or OTP expired", none⟩,
            store := s, token := none } := by
        unfold verifyOtp
        rw [hget]
        simp [hc]
      rw [hv] at h
      exact absurd h (by simp)

/-- C10 witness: a concrete successful verification and its token past
expiry. -/
theorem claim10_token_subject_expiry_witness :
    ((verifyOtp "a@x.com" "123456" 0
        [("a@x.com", ⟨"123456", 60000⟩)]).token = some ⟨"a@x.com", 1800000⟩ ∧
     (1800000 : ℤ) < 1800001) ∧
    ((⟨"a@x.com", 1800000⟩ : Token).email = "a@x.com" ∧
     (⟨"a@x.com", 1800000⟩ : Token).exp = 0 + 1800000 ∧
     verifyToken ⟨"a@x.com", 1800000⟩ 1800001 = none) :=
  ⟨⟨by decide, by decide⟩,
   claim10_token_subject_expiry "a@x.com" "123456" 0 1800001
     [("a@x.com", ⟨"123456", 60000⟩)] ⟨"a@x.com", 1800000⟩
     (by decide) (by decide)⟩

end GalaxyETech
